import Mathlib

/-!
Verification of the 340B optimizer margin engine, recommendation resolver and
risk-flagging layer (`optimizer_340b`), shallowly embedded in Lean.

Conventions of the embedding:
* Python `Decimal` values are modelled as exact rationals (`ℚ`); all the
  arithmetic performed by the engine is addition, subtraction and
  multiplication of small fixed-scale decimals, which `Decimal` carries out
  exactly at its default precision.
* `None` / optional values are modelled with `Option`.
* Python string operations (`upper`, `strip`, `replace("-", "")`, substring
  containment) are modelled by executable character-list functions so concrete
  instances can be checked by `decide`.
* The polars data frames consumed by the penny-pricing module are modelled as
  a record of column-presence flags plus a list of rows, matching how the
  source only ever asks "is column X present" and then iterates rows.
* `float(...)` display conversions are abstracted to the exact rational value;
  the conditional (truthiness) structure of the source is preserved.
-/
/-- Model of Python `str.upper()` (ASCII inputs). -/
def upperStr (s : String) : String := ⟨s.data.map Char.toUpper⟩

/-- Whitespace trimming on a character list, from both ends. -/
def trimCharList (l : List Char) : List Char :=
  ((l.dropWhile Char.isWhitespace).reverse.dropWhile Char.isWhitespace).reverse

/-- Model of Python `str.strip()` (and of polars `str.strip_chars()`). -/
def stripStr (s : String) : String := ⟨trimCharList s.data⟩

/-- Model of Python `str.replace("-", "")`. -/
def stripDashes (s : String) : String := ⟨s.data.filter (fun c => c ≠ '-')⟩

/-- Model of Python `needle in hay` substring containment. -/
def isSubstrOf (needle hay : String) : Bool := decide (needle.data <:+: hay.data)

/-! ## models.py -/
/-- `RecommendedPath` enum from `models.py`. -/
inductive RecommendedPath where
  | RETAIL
  | MEDICARE_MEDICAL
  | COMMERCIAL_MEDICAL
deriving DecidableEq, Repr

/-- The `.value` string of each `RecommendedPath` member. -/
def RecommendedPath.value : RecommendedPath → String
  | .RETAIL => "RETAIL"
  | .MEDICARE_MEDICAL => "MEDICARE_MEDICAL"
  | .COMMERCIAL_MEDICAL => "COMMERCIAL_MEDICAL"

/-- `Drug` dataclass from `models.py`. -/
structure Drug where
  ndc : String
  drug_name : String
  manufacturer : String
  contract_cost : ℚ
  awp : ℚ
  asp : Option ℚ := none
  hcpcs_code : Option String := none
  bill_units_per_package : ℤ := 1
  therapeutic_class : Option String := none
  is_biologic : Bool := false
  ira_flag : Bool := false
  penny_pricing_flag : Bool := false
deriving DecidableEq, Repr

/-- `Drug.has_medical_path`: true iff the drug has both HCPCS code and ASP. -/
def Drug.has_medical_path (d : Drug) : Bool :=
  d.hcpcs_code.isSome && d.asp.isSome

/-- `MarginAnalysis` dataclass from `models.py`. -/
structure MarginAnalysis where
  drug : Drug
  retail_gross_margin : ℚ
  retail_net_margin : ℚ
  retail_capture_rate : ℚ
  medicare_margin : Option ℚ
  commercial_margin : Option ℚ
  recommended_path : RecommendedPath
  margin_delta : ℚ
deriving DecidableEq, Repr

/-! ## compute/margins.py -/
/-- `AWP_DISCOUNT_FACTOR = Decimal("0.85")`. -/
def AWP_DISCOUNT_FACTOR : ℚ := 85 / 100

/-- `MEDICARE_ASP_MULTIPLIER = Decimal("1.06")`. -/
def MEDICARE_ASP_MULTIPLIER : ℚ := 106 / 100

/-- `COMMERCIAL_ASP_MULTIPLIER = Decimal("1.15")`. -/
def COMMERCIAL_ASP_MULTIPLIER : ℚ := 115 / 100

/-- `DEFAULT_CAPTURE_RATE = Decimal("0.45")`. -/
def DEFAULT_CAPTURE_RATE : ℚ := 45 / 100

/-- `calculate_retail_margin(drug, capture_rate) -> (gross_margin, net_margin)`. -/
def calculate_retail_margin (drug : Drug) (capture_rate : ℚ) : ℚ × ℚ :=
  let revenue := drug.awp * AWP_DISCOUNT_FACTOR
  let gross_margin := revenue - drug.contract_cost
  let net_margin := gross_margin * capture_rate
  (gross_margin, net_margin)

/-- `calculate_medicare_margin(drug)`: `None` without a medical path, else
`asp * 1.06 * bill_units_per_package - contract_cost`. -/
def calculate_medicare_margin (drug : Drug) : Option ℚ :=
  if drug.has_medical_path then
    match drug.asp with
    | some asp =>
        some (asp * MEDICARE_ASP_MULTIPLIER * (drug.bill_units_per_package : ℚ)
          - drug.contract_cost)
    | none => none
  else none

/-- `calculate_commercial_margin(drug)`: `None` without a medical path, else
`asp * 1.15 * bill_units_per_package - contract_cost`. -/
def calculate_commercial_margin (drug : Drug) : Option ℚ :=
  if drug.has_medical_path then
    match drug.asp with
    | some asp =>
        some (asp * COMMERCIAL_ASP_MULTIPLIER * (drug.bill_units_per_package : ℚ)
          - drug.contract_cost)
    | none => none
  else none

/-- The `options` candidate list built in `determine_recommendation`: RETAIL
always, then MEDICARE_MEDICAL and COMMERCIAL_MEDICAL appended when present. -/
def buildOptions (retail_net : ℚ) (medicare commercial : Option ℚ) :
    List (RecommendedPath × ℚ) :=
  let options : List (RecommendedPath × ℚ) := [(RecommendedPath.RETAIL, retail_net)]
  let options := match medicare with
    | some m => options ++ [(RecommendedPath.MEDICARE_MEDICAL, m)]
    | none => options
  match commercial with
  | some c => options ++ [(RecommendedPath.COMMERCIAL_MEDICAL, c)]
  | none => options

/-- `options.sort(key=lambda x: x[1], reverse=True)`: The Python sort is stable
and `reverse=True` keeps equal keys in insertion order, which is exactly
insertion sort with the non-strict comparison `b.2 ≤ a.2`. -/
def sortOptionsDesc (l : List (RecommendedPath × ℚ)) : List (RecommendedPath × ℚ) :=
  l.insertionSort (fun a b => b.2 ≤ a.2)

/-- `determine_recommendation(retail_net, medicare, commercial) -> (path, delta)`. -/
def determine_recommendation (retail_net : ℚ) (medicare commercial : Option ℚ) :
    RecommendedPath × ℚ :=
  match sortOptionsDesc (buildOptions retail_net medicare commercial) with
  | [] => (RecommendedPath.RETAIL, retail_net)
  | best :: rest =>
    match rest with
    | [] => (best.1, best.2)
    | second :: _ => (best.1, best.2 - second.2)

/-- `analyze_drug_margin(drug, capture_rate) -> MarginAnalysis`. -/
def analyze_drug_margin (drug : Drug) (capture_rate : ℚ) : MarginAnalysis :=
  let retail := calculate_retail_margin drug capture_rate
  let medicare := calculate_medicare_margin drug
  let commercial := calculate_commercial_margin drug
  let rec_delta := determine_recommendation retail.2 medicare commercial
  { drug := drug
    retail_gross_margin := retail.1
    retail_net_margin := retail.2
    retail_capture_rate := capture_rate
    medicare_margin := medicare
    commercial_margin := commercial
    recommended_path := rec_delta.1
    margin_delta := rec_delta.2 }

/-- One row of the `calculate_margin_sensitivity` result (the dict built per
capture rate in the source). -/
structure SensitivityRow where
  capture_rate : ℚ
  retail_net : ℚ
  medicare : ℚ
  commercial : ℚ
  recommended : String
deriving DecidableEq, Repr, Inhabited

/-- Default capture-rate scenarios of `calculate_margin_sensitivity`. -/
def default_capture_rates : List ℚ := [40 / 100, 45 / 100, 60 / 100, 80 / 100, 1]

/-- `calculate_margin_sensitivity(drug, capture_rates)`; `none` stands for the
Python `None` default.  `medicare or Decimal("0")` yields the same value as
`Option.getD 0` (a present zero is replaced by the zero literal). -/
def calculate_margin_sensitivity (drug : Drug) (capture_rates : Option (List ℚ)) :
    List SensitivityRow :=
  let rates := capture_rates.getD default_capture_rates
  let medicare := calculate_medicare_margin drug
  let commercial := calculate_commercial_margin drug
  rates.map (fun rate =>
    let retail_net := (calculate_retail_margin drug rate).2
    let best := (determine_recommendation retail_net medicare commercial).1
    { capture_rate := rate
      retail_net := retail_net
      medicare := medicare.getD 0
      commercial := commercial.getD 0
      recommended := best.value })

/-! ## Concrete drugs used in the theorems -/
/-- The gatekeeper drug of spec §8.1: contract_cost 150.00, awp 6500.00,
asp 2800.00, a HCPCS code, 2 bill units per package. -/
def gatekeeperDrug : Drug :=
  { ndc := "00000000001"
    drug_name := "TESTDRUG"
    manufacturer := "TESTMFG"
    contract_cost := 150
    awp := 6500
    asp := some 2800
    hcpcs_code := some "J9999"
    bill_units_per_package := 2 }

/-! ## Claim C2: commercial vs Medicare margin -/
/-- A drug with a medical path but `asp = 0`: both medical margins collapse to
`-contract_cost`, so the commercial margin is not strictly greater. -/
def drugZeroAsp : Drug :=
  { ndc := "00000000002"
    drug_name := "ZEROASP"
    manufacturer := "TESTMFG"
    contract_cost := 150
    awp := 1000
    asp := some 0
    hcpcs_code := some "J0001"
    bill_units_per_package := 2 }

/-! ## Claim C3: the resolver against its specification -/
/-- Specification of the resolver, written from the words of the spec: RETAIL is
always a candidate and the medical paths are candidates iff present; the
candidate with the highest margin wins; margin ties break by the fixed
priority RETAIL > MEDICARE_MEDICAL > COMMERCIAL_MEDICAL; delta is the top
margin minus the second margin when at least two candidates exist, else the
margin of the single candidate. -/
def resolveSpec (retail_net : ℚ) (medicare commercial : Option ℚ) :
    RecommendedPath × ℚ :=
  match medicare, commercial with
  | none, none => (RecommendedPath.RETAIL, retail_net)
  | some m, none =>
      if retail_net ≥ m then (RecommendedPath.RETAIL, retail_net - m)
      else (RecommendedPath.MEDICARE_MEDICAL, m - retail_net)
  | none, some c =>
      if retail_net ≥ c then (RecommendedPath.RETAIL, retail_net - c)
      else (RecommendedPath.COMMERCIAL_MEDICAL, c - retail_net)
  | some m, some c =>
      if retail_net ≥ m ∧ retail_net ≥ c then
        (RecommendedPath.RETAIL, retail_net - max m c)
      else if m ≥ c then
        (RecommendedPath.MEDICARE_MEDICAL, m - max retail_net c)
      else
        (RecommendedPath.COMMERCIAL_MEDICAL, c - max retail_net m)

/-- A retail-only drug whose retail margin is negative: awp*0.85 < cost. -/
def drugRetailLoss : Drug :=
  { ndc := "00000000003"
    drug_name := "LOSSLEADER"
    manufacturer := "TESTMFG"
    contract_cost := 100
    awp := 0 }

/-! ## risk/ira_flags.py -/
/-- `IRA_2026_DRUGS`: the 2026 negotiation cohort, name → description, in
source insertion order. -/
def IRA_2026_DRUGS : List (String × String) :=
  [("ELIQUIS", "Blood thinner (apixaban)"),
   ("JARDIANCE", "Diabetes (empagliflozin)"),
   ("XARELTO", "Blood thinner (rivaroxaban)"),
   ("JANUVIA", "Diabetes (sitagliptin)"),
   ("FARXIGA", "Diabetes/Heart failure (dapagliflozin)"),
   ("ENTRESTO", "Heart failure (sacubitril/valsartan)"),
   ("ENBREL", "Autoimmune (etanercept)"),
   ("IMBRUVICA", "Cancer (ibrutinib)"),
   ("STELARA", "Autoimmune (ustekinumab)"),
   ("FIASP", "Insulin (insulin aspart)"),
   ("FIASP FLEXTOUCH", "Insulin (insulin aspart)"),
   ("FIASP PENFILL", "Insulin (insulin aspart)"),
   ("NOVOLOG", "Insulin (insulin aspart)"),
   ("NOVOLOG FLEXPEN", "Insulin (insulin aspart)"),
   ("NOVOLOG MIX", "Insulin (insulin aspart)")]

/-- `IRA_2027_DRUGS`: the 2027 negotiation cohort, in source insertion
order. -/
def IRA_2027_DRUGS : List (String × String) :=
  [("OZEMPIC", "Diabetes/Weight loss (semaglutide)"),
   ("RYBELSUS", "Diabetes (oral semaglutide)"),
   ("WEGOVY", "Weight loss (semaglutide)"),
   ("TRELEGY ELLIPTA", "COPD (fluticasone/umeclidinium/vilanterol)"),
   ("TRULICITY", "Diabetes (dulaglutide)"),
   ("POMALYST", "Cancer (pomalidomide)"),
   ("AUSTEDO", "Movement disorders (deutetrabenazine)"),
   ("IBRANCE", "Cancer (palbociclib)"),
   ("OTEZLA", "Autoimmune (apremilast)"),
   ("COSENTYX", "Autoimmune (secukinumab)"),
   ("TALZENNA", "Cancer (talazoparib)"),
   ("AUBAGIO", "Multiple sclerosis (teriflunomide)"),
   ("OMVOH", "Ulcerative colitis (mirikizumab)"),
   ("XTANDI", "Cancer (enzalutamide)"),
   ("SIVEXTRO", "Antibiotic (tedizolid)")]

/-- `IRA_DRUGS_BY_YEAR`: combined insertion-ordered lookup, 2026 entries first
then 2027, keys uppercased as in the build loop of the source. -/
def IRA_DRUGS_BY_YEAR : List (String × Nat) :=
  IRA_2026_DRUGS.map (fun p => (upperStr p.1, 2026))
    ++ IRA_2027_DRUGS.map (fun p => (upperStr p.1, 2027))

/-- The result dict of `check_ira_status`. -/
structure IRAResult where
  is_ira_drug : Bool
  ira_year : Option Nat
  drug_name : Option String
  description : Option String
  warning_message : String
  risk_level : String
deriving DecidableEq, Repr

/-- The description lookup in `check_ira_status`:
`IRA_2026_DRUGS.get(name) or IRA_2027_DRUGS.get(name)` (descriptions are
never empty, so Python `or` coincides with `Option.orElse`). -/
def iraDescription (name : String) : Option String :=
  (IRA_2026_DRUGS.lookup name).orElse (fun _ => IRA_2027_DRUGS.lookup name)

/-- `check_ira_status` with the registry and the description table as explicit
parameters: the source reads the module-global tables, which the embedding
passes as arguments (the upload page may swap them at runtime). -/
def check_ira_status_core (registry : List (String × Nat))
    (desc : String → Option String) (drug_name : String) : IRAResult :=
  if drug_name = "" then
    { is_ira_drug := false
      ira_year := none
      drug_name := none
      description := none
      warning_message := "No drug name provided"
      risk_level := "Unknown" }
  else
    let name_upper := stripStr (upperStr drug_name)
    match registry.lookup name_upper with
    | some year =>
      { is_ira_drug := true
        ira_year := some year
        drug_name := some name_upper
        description := desc name_upper
        warning_message :=
          "High Risk / IRA " ++ toString year ++ ": " ++ drug_name
            ++ " is subject to Medicare price negotiation. 340B margins may be"
            ++ " significantly reduced starting " ++ toString year ++ "."
        risk_level := "High Risk" }
    | none =>
      match registry.find?
          (fun p => isSubstrOf p.1 name_upper || isSubstrOf name_upper p.1) with
      | some p =>
        { is_ira_drug := true
          ira_year := some p.2
          drug_name := some p.1
          description := desc p.1
          warning_message :=
            "High Risk / IRA " ++ toString p.2 ++ ": " ++ drug_name
              ++ " appears to match " ++ p.1
              ++ ", which is subject to Medicare price negotiation."
          risk_level := "High Risk" }
      | none =>
        { is_ira_drug := false
          ira_year := none
          drug_name := none
          description := none
          warning_message := "No IRA risk detected"
          risk_level := "Low Risk" }

/-- `check_ira_status(drug_name)` against the built-in module registries. -/
def check_ira_status (drug_name : String) : IRAResult :=
  check_ira_status_core IRA_DRUGS_BY_YEAR iraDescription drug_name

/-! ## Claim C8: runtime reload of the IRA registry -/
/-- One row of the IRA reference file accepted by the reload operation. -/
structure IraReferenceRow where
  drug_name : String
  ira_year : Nat
  description : String
deriving DecidableEq, Repr

/-- Modelled from the spec: `reload_ira_drugs` is imported by
`ui/pages/upload.py` from `optimizer_340b.risk.ira_flags` but its definition
is not present under `src/`.  Per spec §6 ("Risk reference reload") and §4.3
it accepts a tabular collection of (drug_name, year, description) rows,
atomically replaces the IRA registry so that subsequent lookups consult the
new table, and reports the count of replaced entries.  The process-wide
mutable registry is embedded by state passing: the function returns the new
combined name→year registry, the new description table and the count. -/
def reload_ira_drugs (rows : List IraReferenceRow) :
    List (String × Nat) × (String → Option String) × Nat :=
  let registry := rows.map (fun r => (upperStr r.drug_name, r.ira_year))
  let desc := fun name =>
    (rows.map (fun r => (upperStr r.drug_name, r.description))).lookup name
  (registry, desc, rows.length)

/-! ## risk/penny_pricing.py -/
/-- `PENNY_THRESHOLD = Decimal("0.10")`. -/
def PENNY_THRESHOLD : ℚ := 10 / 100

/-- `HIGH_DISCOUNT_THRESHOLD = Decimal("95.0")`. -/
def HIGH_DISCOUNT_THRESHOLD : ℚ := 95

/-- One row of the NADAC data frame; absent columns / nulls are `none`. -/
structure NadacRow where
  ndc : String
  penny_pricing : Option Bool := none
  nadac_per_unit : Option ℚ := none
  total_discount_340b_pct : Option ℚ := none
deriving DecidableEq, Repr

/-- The NADAC polars frame: column-presence flags plus the rows, matching how
the source checks `"col" in df.columns` then iterates rows. -/
structure NadacFrame where
  has_ndc_column : Bool := true
  has_penny_column : Bool
  has_nadac_column : Bool := false
  has_discount_column : Bool
  rows : List NadacRow
deriving DecidableEq, Repr

/-- One flagged entry produced by `check_penny_pricing`. -/
structure FlaggedPenny where
  ndc : String
  is_penny_priced : Bool
  discount_pct : Option ℚ
  warning_message : String
  should_exclude : Bool
deriving DecidableEq, Repr

/-- The per-row trigger logic of the `check_penny_pricing` loop: the explicit
flag check, then the discount-threshold check (which overwrites the reason);
returns (is_penny, reason). -/
def bulkRowTrigger (has_penny_column has_discount_column : Bool)
    (row : NadacRow) : Bool × String :=
  let s1 : Bool × String :=
    if has_penny_column && row.penny_pricing.getD false then
      (true, "Penny pricing flag is set")
    else (false, "")
  if has_discount_column then
    match row.total_discount_340b_pct with
    | some d =>
        if HIGH_DISCOUNT_THRESHOLD ≤ d then (true, "340B discount is high")
        else s1
    | none => s1
  else s1

/-- The flagged record appended by the `check_penny_pricing` loop when the
trigger of the row fires. -/
def bulkRowFlag (has_penny_column has_discount_column : Bool)
    (row : NadacRow) : Option FlaggedPenny :=
  let t := bulkRowTrigger has_penny_column has_discount_column row
  if t.1 then
    some { ndc := row.ndc
           is_penny_priced := true
           discount_pct := row.total_discount_340b_pct
           warning_message :=
             "Penny Pricing Alert: " ++ row.ndc ++ " - " ++ t.2
               ++ ". This drug should NOT appear in Top Opportunities."
           should_exclude := true }
  else none

/-- `check_penny_pricing(nadac_df)`: early return when both columns are
missing, else the flagged subset of the rows. -/
def check_penny_pricing (f : NadacFrame) : List FlaggedPenny :=
  if !f.has_penny_column && !f.has_discount_column then []
  else f.rows.filterMap (bulkRowFlag f.has_penny_column f.has_discount_column)

/-- `PennyPricingStatus` dataclass. -/
structure PennyPricingStatus where
  is_penny_priced : Bool
  ndc : String
  nadac_price : Option ℚ
  discount_pct : Option ℚ
  warning_message : String
  should_exclude : Bool
deriving DecidableEq, Repr

/-- The three-trigger assessment of `check_penny_pricing_for_drug` on the
matched row: explicit flag, then NADAC per-unit price ≤ threshold, then
discount ≥ threshold; returns (is_penny, nadac_price, discount_pct,
reason). -/
def drugRowAssess (has_penny_column has_nadac_column has_discount_column : Bool)
    (row : NadacRow) : Bool × Option ℚ × Option ℚ × String :=
  let s1 : Bool × String :=
    if has_penny_column && row.penny_pricing.getD false then
      (true, "Penny pricing flag is set")
    else (false, "")
  let price : Option ℚ := if has_nadac_column then row.nadac_per_unit else none
  let s2 : Bool × String :=
    match price with
    | some p => if p ≤ PENNY_THRESHOLD then (true, "NADAC price is low") else s1
    | none => s1
  let dpct : Option ℚ :=
    if has_discount_column then row.total_discount_340b_pct else none
  let s3 : Bool × String :=
    match dpct with
    | some d =>
        if HIGH_DISCOUNT_THRESHOLD ≤ d then (true, "340B discount is high")
        else s2
    | none => s2
  (s3.1, price, dpct, s3.2)

/-- `check_penny_pricing_for_drug(ndc, nadac_df)`: normalizes the NDC, filters
the frame on the normalized ndc column, and assesses the first match with the
three triggers. -/
def check_penny_pricing_for_drug (ndc : String) (f : NadacFrame) :
    PennyPricingStatus :=
  let ndc_clean := stripStr (stripDashes ndc)
  if f.has_ndc_column = false then
    { is_penny_priced := false
      ndc := ndc
      nadac_price := none
      discount_pct := none
      warning_message := "NADAC data not available"
      should_exclude := false }
  else
    match f.rows.filter (fun r => stripStr (stripDashes r.ndc) == ndc_clean) with
    | [] =>
      { is_penny_priced := false
        ndc := ndc
        nadac_price := none
        discount_pct := none
        warning_message := "NDC not found in NADAC data"
        should_exclude := false }
    | row :: _ =>
      let a := drugRowAssess f.has_penny_column f.has_nadac_column
        f.has_discount_column row
      { is_penny_priced := a.1
        ndc := ndc
        nadac_price := a.2.1
        discount_pct := a.2.2.1
        warning_message :=
          if a.1 then
            "Penny Pricing Alert: " ++ ndc ++ " - " ++ a.2.2.2
              ++ ". Exclude from Top Opportunities."
          else "No penny pricing detected"
        should_exclude := a.1 }

/-- A three-row NADAC frame exercising the bulk penny triggers: explicit flag
with low discount, high discount with false flag, and neither. -/
def exampleNadacFrame : NadacFrame :=
  { has_penny_column := true
    has_discount_column := true
    rows :=
      [{ ndc := "A", penny_pricing := some true,
         total_discount_340b_pct := some 50 },
       { ndc := "B", penny_pricing := some false,
         total_discount_340b_pct := some (999 / 10) },
       { ndc := "C", penny_pricing := some false,
         total_discount_340b_pct := some 50 }] }

/-- A one-row frame whose only trigger is the absolute per-unit price. -/
def singleRowFrame : NadacFrame :=
  { has_penny_column := true
    has_nadac_column := true
    has_discount_column := false
    rows := [{ ndc := "X", penny_pricing := some false,
               nadac_per_unit := some (10 / 100) }] }

/-! ## Claim C10: MarginAnalysis.to_display_dict -/
/-- Python truthiness conversion `float(x) if x else None` applied to an
optional Decimal: a present zero is falsy and renders as `None`; the `float`
conversion itself is abstracted to the exact value. -/
def truthyFloat (x : Option ℚ) : Option ℚ :=
  match x with
  | some v => if v = 0 then none else some v
  | none => none

/-- The display dictionary produced by `MarginAnalysis.to_display_dict`, with
its exact field names. -/
structure DisplayDict where
  ndc : String
  drug_name : String
  manufacturer : String
  contract_cost : ℚ
  awp : ℚ
  asp : Option ℚ
  retail_gross_margin : ℚ
  retail_net_margin : ℚ
  retail_capture_rate : ℚ
  medicare_margin : Option ℚ
  commercial_margin : Option ℚ
  recommendation : String
  margin_delta : ℚ
  ira_risk : Bool
  penny_pricing : Bool
deriving DecidableEq, Repr

/-- `MarginAnalysis.to_display_dict`. -/
def to_display_dict (ma : MarginAnalysis) : DisplayDict :=
  { ndc := ma.drug.ndc
    drug_name := ma.drug.drug_name
    manufacturer := ma.drug.manufacturer
    contract_cost := ma.drug.contract_cost
    awp := ma.drug.awp
    asp := truthyFloat ma.drug.asp
    retail_gross_margin := ma.retail_gross_margin
    retail_net_margin := ma.retail_net_margin
    retail_capture_rate := ma.retail_capture_rate
    medicare_margin := truthyFloat ma.medicare_margin
    commercial_margin := truthyFloat ma.commercial_margin
    recommendation := ma.recommended_path.value
    margin_delta := ma.margin_delta
    ira_risk := ma.drug.ira_flag
    penny_pricing := ma.drug.penny_pricing_flag }

/-- A drug whose Medicare margin is present and exactly zero:
asp * 1.06 * 1 - contract_cost = 106 - 106 = 0. -/
def drugZeroMedicare : Drug :=
  { ndc := "00000000004"
    drug_name := "ZEROMARGIN"
    manufacturer := "TESTMFG"
    contract_cost := 106
    awp := 200
    asp := some 100
    hcpcs_code := some "J0002"
    bill_units_per_package := 1 }

/-! ## Theorems -/

/-- Claim C1: for a drug with contract_cost=150.00, awp=6500.00, asp=2800.00,
hcpcs_code present and bill_units_per_package=2, `calculate_retail_margin`
returns gross margin exactly 5375.00, `calculate_medicare_margin` exactly
5786.00 and `calculate_commercial_margin` exactly 6290.00, as exact
equalities. -/
theorem c1_penny_exact_formulas :
    (calculate_retail_margin gatekeeperDrug DEFAULT_CAPTURE_RATE).1 = 5375 ∧
    calculate_medicare_margin gatekeeperDrug = some 5786 ∧
    calculate_commercial_margin gatekeeperDrug = some 6290 := by
  refine ⟨?_, ?_, ?_⟩ <;>
    norm_num [calculate_retail_margin, calculate_medicare_margin,
      calculate_commercial_margin, Drug.has_medical_path, gatekeeperDrug,
      AWP_DISCOUNT_FACTOR, MEDICARE_ASP_MULTIPLIER, COMMERCIAL_ASP_MULTIPLIER,
      DEFAULT_CAPTURE_RATE]

/-- Claim C2 counterexample: `drugZeroAsp` has a medical billing path (both
hcpcs_code and asp present), yet its commercial margin equals — rather than
strictly exceeds — its Medicare margin. -/
theorem c2_counterexample :
    drugZeroAsp.has_medical_path = true ∧
    ¬ (∃ m c, calculate_medicare_margin drugZeroAsp = some m ∧
        calculate_commercial_margin drugZeroAsp = some c ∧ m < c) := by
  constructor
  · rfl
  · rintro ⟨m, c, hm, hc, hlt⟩
    have hm' : m = -150 := by
      have : some m = some (-150 : ℚ) := by
        rw [← hm]
        norm_num [calculate_medicare_margin, drugZeroAsp, Drug.has_medical_path,
          MEDICARE_ASP_MULTIPLIER]
      exact (Option.some.injEq _ _).mp this.symm |>.symm
    have hc' : c = -150 := by
      have : some c = some (-150 : ℚ) := by
        rw [← hc]
        norm_num [calculate_commercial_margin, drugZeroAsp, Drug.has_medical_path,
          COMMERCIAL_ASP_MULTIPLIER]
      exact (Option.some.injEq _ _).mp this.symm |>.symm
    rw [hm', hc'] at hlt
    exact absurd hlt (lt_irrefl _)

/-- Claim C2 (amended): for every drug with a medical billing path whose ASP is
strictly positive and whose bill-units count is strictly positive, the
commercial margin strictly exceeds the Medicare margin. -/
theorem c2_commercial_exceeds_medicare (d : Drug) (a : ℚ)
    (hasp : d.asp = some a) (hh : d.hcpcs_code.isSome = true)
    (hpos : 0 < a) (hbu : 0 < d.bill_units_per_package) :
    ∃ m c, calculate_medicare_margin d = some m ∧
      calculate_commercial_margin d = some c ∧ m < c := by
  have hpath : d.has_medical_path = true := by
    simp [Drug.has_medical_path, hh, hasp]
  refine ⟨a * MEDICARE_ASP_MULTIPLIER * (d.bill_units_per_package : ℚ)
      - d.contract_cost,
    a * COMMERCIAL_ASP_MULTIPLIER * (d.bill_units_per_package : ℚ)
      - d.contract_cost, ?_, ?_, ?_⟩
  · simp [calculate_medicare_margin, hpath, hasp]
  · simp [calculate_commercial_margin, hpath, hasp]
  · have hbu' : (0 : ℚ) < (d.bill_units_per_package : ℚ) := by exact_mod_cast hbu
    have h9 : 0 < a * (9 / 100 : ℚ) * (d.bill_units_per_package : ℚ) := by
      positivity
    have : a * COMMERCIAL_ASP_MULTIPLIER * (d.bill_units_per_package : ℚ)
        - a * MEDICARE_ASP_MULTIPLIER * (d.bill_units_per_package : ℚ)
        = a * (9 / 100 : ℚ) * (d.bill_units_per_package : ℚ) := by
      unfold COMMERCIAL_ASP_MULTIPLIER MEDICARE_ASP_MULTIPLIER
      ring
    linarith

/-- Claim C2 witness: the amended theorem applied to the gatekeeper drug. -/
theorem c2_witness :
    ∃ m c, calculate_medicare_margin gatekeeperDrug = some m ∧
      calculate_commercial_margin gatekeeperDrug = some c ∧ m < c :=
  c2_commercial_exceeds_medicare gatekeeperDrug 2800 rfl rfl (by norm_num)
    (by norm_num [gatekeeperDrug])

/-- The source resolver agrees with its specification everywhere (shared
helper). -/
lemma determine_recommendation_eq_resolveSpec (r : ℚ) (m c : Option ℚ) :
    determine_recommendation r m c = resolveSpec r m c := by
  cases m with
  | none =>
    cases c with
    | none =>
      simp [determine_recommendation, buildOptions, sortOptionsDesc, resolveSpec,
        List.insertionSort, List.orderedInsert]
    | some cc =>
      rcases le_or_lt cc r with h | h
      · simp [determine_recommendation, buildOptions, sortOptionsDesc, resolveSpec,
          List.insertionSort, List.orderedInsert, h, ge_iff_le]
      · simp [determine_recommendation, buildOptions, sortOptionsDesc, resolveSpec,
          List.insertionSort, List.orderedInsert, h.not_le, ge_iff_le]
  | some mm =>
    cases c with
    | none =>
      rcases le_or_lt mm r with h | h
      · simp [determine_recommendation, buildOptions, sortOptionsDesc, resolveSpec,
          List.insertionSort, List.orderedInsert, h, ge_iff_le]
      · simp [determine_recommendation, buildOptions, sortOptionsDesc, resolveSpec,
          List.insertionSort, List.orderedInsert, h.not_le, ge_iff_le]
    | some cc =>
      rcases le_or_lt mm r with h1 | h1 <;>
        rcases le_or_lt cc r with h2 | h2 <;>
          rcases le_or_lt cc mm with h3 | h3
      · -- mm ≤ r, cc ≤ r, cc ≤ mm : sorted [R, M, C]
        simp [determine_recommendation, buildOptions, sortOptionsDesc, resolveSpec,
          List.insertionSort, List.orderedInsert, h1, h2, h3, ge_iff_le,
          max_eq_left h3]
      · -- mm ≤ r, cc ≤ r, mm < cc : sorted [R, C, M]
        simp [determine_recommendation, buildOptions, sortOptionsDesc, resolveSpec,
          List.insertionSort, List.orderedInsert, h1, h2, h3.not_le, ge_iff_le,
          max_eq_right h3.le]
      · -- mm ≤ r, r < cc, cc ≤ mm : impossible
        exact absurd (h3.trans h1) h2.not_le
      · -- mm ≤ r < cc : commercial wins, second is r
        have hmr : ¬ (cc ≤ r) := h2.not_le
        simp [determine_recommendation, buildOptions, sortOptionsDesc, resolveSpec,
          List.insertionSort, List.orderedInsert, h1, hmr, h3.not_le, ge_iff_le,
          max_eq_left h1]
      · -- r < mm, cc ≤ r, cc ≤ mm : medicare wins, second is r
        simp [determine_recommendation, buildOptions, sortOptionsDesc, resolveSpec,
          List.insertionSort, List.orderedInsert, h1.not_le, h2, h3, ge_iff_le,
          max_eq_left h2]
      · -- r < mm, cc ≤ r, mm < cc : impossible
        exact absurd ((h2.trans_lt h1).trans h3) (lt_irrefl cc)
      · -- r < mm, r < cc, cc ≤ mm : medicare wins, second is cc
        simp [determine_recommendation, buildOptions, sortOptionsDesc, resolveSpec,
          List.insertionSort, List.orderedInsert, h1.not_le, h2.not_le, h3,
          ge_iff_le, max_eq_right h2.le]
      · -- r < mm < cc : commercial wins, second is mm
        simp [determine_recommendation, buildOptions, sortOptionsDesc, resolveSpec,
          List.insertionSort, List.orderedInsert, h1.not_le, h2.not_le, h3.not_le,
          ge_iff_le, max_eq_right h1.le]

/-- Claim C3: `determine_recommendation` builds the candidate set with RETAIL
always present and the medical paths present iff their margin is non-absent,
picks the highest margin with the fixed tie-break RETAIL > MEDICARE_MEDICAL >
COMMERCIAL_MEDICAL, and returns delta = top minus second margin when at least
two candidates exist, else the margin of the single candidate; in particular
`determine_recommendation 100 none none = (RETAIL, 100)`. -/
theorem c3_resolver_matches_spec :
    (∀ (r : ℚ) (m c : Option ℚ),
      determine_recommendation r m c = resolveSpec r m c) ∧
    determine_recommendation 100 none none = (RecommendedPath.RETAIL, 100) := by
  refine ⟨determine_recommendation_eq_resolveSpec, ?_⟩
  rw [determine_recommendation_eq_resolveSpec]
  rfl

/-! ## Claim C4: sign of margin_delta -/
/-- The delta of the spec resolver is non-negative whenever some medical candidate
exists or the retail net margin is non-negative (shared helper). -/
lemma resolveSpec_delta_nonneg (r : ℚ) (m c : Option ℚ)
    (h : m.isSome = true ∨ c.isSome = true ∨ 0 ≤ r) :
    0 ≤ (resolveSpec r m c).2 := by
  cases m with
  | none =>
    cases c with
    | none =>
      have hr : 0 ≤ r := by
        rcases h with h | h | h
        · simp at h
        · simp at h
        · exact h
      simpa [resolveSpec] using hr
    | some cc =>
      rcases le_or_lt cc r with hcr | hcr
      · simp [resolveSpec, ge_iff_le, hcr]
      · simp [resolveSpec, ge_iff_le, hcr.not_le]
        linarith
  | some mm =>
    cases c with
    | none =>
      rcases le_or_lt mm r with hmr | hmr
      · simp [resolveSpec, ge_iff_le, hmr]
      · simp [resolveSpec, ge_iff_le, hmr.not_le]
        linarith
    | some cc =>
      by_cases hR : r ≥ mm ∧ r ≥ cc
      · simp [resolveSpec, hR]
      · by_cases hM : mm ≥ cc
        · have hrm : r < mm := by
            rcases not_and_or.mp hR with hx | hx
            · exact lt_of_not_le hx
            · exact lt_of_lt_of_le (lt_of_not_le hx) hM
          have : 0 ≤ mm - max r cc := sub_nonneg.mpr (max_le hrm.le hM)
          simpa [resolveSpec, hR, hM] using this
        · have hcm : mm < cc := lt_of_not_le hM
          have hrc : r < cc := by
            rcases not_and_or.mp hR with hx | hx
            · exact lt_of_le_of_lt (le_of_not_le hx) hcm
            · exact lt_of_not_le hx
          have : 0 ≤ cc - max r mm := sub_nonneg.mpr (max_le hrc.le hcm.le)
          simpa [resolveSpec, hR, hM] using this

/-- Claim C4 counterexample: on a drug with no medical path and negative
retail margin, `analyze_drug_margin` produces a strictly negative
`margin_delta` (the margin of the single candidate). -/
theorem c4_counterexample :
    (analyze_drug_margin drugRetailLoss DEFAULT_CAPTURE_RATE).margin_delta
      = -45 ∧
    (analyze_drug_margin drugRetailLoss DEFAULT_CAPTURE_RATE).margin_delta < 0 := by
  constructor
  · norm_num [analyze_drug_margin, determine_recommendation, buildOptions,
      sortOptionsDesc, List.insertionSort, List.orderedInsert,
      calculate_retail_margin, calculate_medicare_margin,
      calculate_commercial_margin, Drug.has_medical_path, drugRetailLoss,
      AWP_DISCOUNT_FACTOR, DEFAULT_CAPTURE_RATE]
  · norm_num [analyze_drug_margin, determine_recommendation, buildOptions,
      sortOptionsDesc, List.insertionSort, List.orderedInsert,
      calculate_retail_margin, calculate_medicare_margin,
      calculate_commercial_margin, Drug.has_medical_path, drugRetailLoss,
      AWP_DISCOUNT_FACTOR, DEFAULT_CAPTURE_RATE]

/-- Claim C4 (amended): `margin_delta` is non-negative for every drug and
capture rate such that the drug has a medical path or its retail net margin is
non-negative; a retail-only drug with a negative net margin yields that
negative margin as its delta. -/
theorem c4_margin_delta_nonneg (d : Drug) (rate : ℚ)
    (h : d.has_medical_path = true ∨ 0 ≤ (calculate_retail_margin d rate).2) :
    0 ≤ (analyze_drug_margin d rate).margin_delta := by
  have hdelta : (analyze_drug_margin d rate).margin_delta
      = (resolveSpec (calculate_retail_margin d rate).2
          (calculate_medicare_margin d) (calculate_commercial_margin d)).2 := by
    simp [analyze_drug_margin, determine_recommendation_eq_resolveSpec]
  rw [hdelta]
  apply resolveSpec_delta_nonneg
  rcases h with h | h
  · left
    have hasp : d.asp.isSome = true := by
      have h2 := h
      simp only [Drug.has_medical_path, Bool.and_eq_true] at h2
      exact h2.2
    obtain ⟨a, ha⟩ := Option.isSome_iff_exists.mp hasp
    simp [calculate_medicare_margin, h, ha]
  · right; right; exact h

/-- Claim C4 witness: the amended theorem applied to the gatekeeper drug at
the default capture rate. -/
theorem c4_witness :
    0 ≤ (analyze_drug_margin gatekeeperDrug DEFAULT_CAPTURE_RATE).margin_delta :=
  c4_margin_delta_nonneg gatekeeperDrug DEFAULT_CAPTURE_RATE (Or.inl rfl)

/-! ## Claim C5: no medical path resolves to RETAIL with absent margins -/
/-- Claim C5: for every drug with `asp` absent or `hcpcs_code` absent, the
analysis recommends RETAIL and reports both medical margins as absent
(`none`), never zero. -/
theorem c5_no_medical_path_retail (d : Drug) (rate : ℚ)
    (h : d.asp = none ∨ d.hcpcs_code = none) :
    (analyze_drug_margin d rate).recommended_path = RecommendedPath.RETAIL ∧
    (analyze_drug_margin d rate).medicare_margin = none ∧
    (analyze_drug_margin d rate).commercial_margin = none := by
  have hpath : d.has_medical_path = false := by
    rcases h with h | h <;> simp [Drug.has_medical_path, h]
  refine ⟨?_, ?_, ?_⟩ <;>
    simp [analyze_drug_margin, calculate_medicare_margin,
      calculate_commercial_margin, hpath, determine_recommendation,
      buildOptions, sortOptionsDesc, List.insertionSort, List.orderedInsert]

/-- Claim C5 witness: the retail-only drug `drugRetailLoss`. -/
theorem c5_witness :
    (analyze_drug_margin drugRetailLoss DEFAULT_CAPTURE_RATE).recommended_path
      = RecommendedPath.RETAIL ∧
    (analyze_drug_margin drugRetailLoss DEFAULT_CAPTURE_RATE).medicare_margin
      = none ∧
    (analyze_drug_margin drugRetailLoss DEFAULT_CAPTURE_RATE).commercial_margin
      = none :=
  c5_no_medical_path_retail drugRetailLoss DEFAULT_CAPTURE_RATE (Or.inl rfl)

/-! ## Claim C6: sensitivity table -/
/-- Claim C6: `calculate_margin_sensitivity` yields one row per capture rate in
input order (default 0.40, 0.45, 0.60, 0.80, 1.00); for a drug without a
medical path every row reports medicare and commercial as zero; the
retail_net of every row equals retail_gross times the capture rate of that
row exactly, so the default table net at rate 0.40 equals its net at rate
1.00 times 0.40. -/
theorem c6_sensitivity :
    (∀ (d : Drug) (rates : List ℚ),
      (calculate_margin_sensitivity d (some rates)).map
        (fun row => row.capture_rate) = rates) ∧
    (∀ d : Drug,
      (calculate_margin_sensitivity d none).map (fun row => row.capture_rate)
        = [40 / 100, 45 / 100, 60 / 100, 80 / 100, 1]) ∧
    (∀ (d : Drug) (ro : Option (List ℚ)), d.has_medical_path = false →
      ∀ row ∈ calculate_margin_sensitivity d ro,
        row.medicare = 0 ∧ row.commercial = 0) ∧
    (∀ (d : Drug) (ro : Option (List ℚ)),
      ∀ row ∈ calculate_margin_sensitivity d ro,
        row.retail_net
          = (calculate_retail_margin d row.capture_rate).1 * row.capture_rate) ∧
    (∀ d : Drug,
      ((calculate_margin_sensitivity d none).map (fun row => row.retail_net)).headI
        = ((calculate_margin_sensitivity d none).map
            (fun row => row.retail_net)).getLastD 0 * (40 / 100)) := by
  refine ⟨?_, ?_, ?_, ?_, ?_⟩
  · intro d rates
    show List.map _ (List.map _ rates) = rates
    rw [List.map_map]
    exact (List.map_congr_left fun a _ => rfl).trans (List.map_id rates)
  · intro d
    simp [calculate_margin_sensitivity, default_capture_rates]
  · intro d ro h row hrow
    have hmed : calculate_medicare_margin d = none := by
      simp [calculate_medicare_margin, h]
    have hcom : calculate_commercial_margin d = none := by
      simp [calculate_commercial_margin, h]
    simp only [calculate_margin_sensitivity, List.mem_map] at hrow
    obtain ⟨rate, -, rfl⟩ := hrow
    simp [hmed, hcom]
  · intro d ro row hrow
    simp only [calculate_margin_sensitivity, List.mem_map] at hrow
    obtain ⟨rate, -, rfl⟩ := hrow
    simp [calculate_retail_margin]
  · intro d
    simp [calculate_margin_sensitivity, default_capture_rates,
      calculate_retail_margin]

/-- The default sensitivity table is never empty (shared helper). -/
lemma calculate_margin_sensitivity_default_ne_nil (d : Drug) :
    calculate_margin_sensitivity d none ≠ [] := by
  simp [calculate_margin_sensitivity, default_capture_rates]

/-- The head of a nonempty list is a member (shared helper). -/
lemma headI_mem_of_ne_nil {α : Type} [Inhabited α] {l : List α} (h : l ≠ []) :
    l.headI ∈ l := by
  cases l with
  | nil => exact absurd rfl h
  | cons a t => simp

/-- Claim C6 witness: on the retail-only drug `drugRetailLoss` the default
sensitivity table reports zero medicare and commercial columns. -/
theorem c6_witness :
    ∃ row ∈ calculate_margin_sensitivity drugRetailLoss none,
      row.medicare = 0 ∧ row.commercial = 0 := by
  have hmem := headI_mem_of_ne_nil
    (calculate_margin_sensitivity_default_ne_nil drugRetailLoss)
  exact ⟨_, hmem, c6_sensitivity.2.2.1 drugRetailLoss none rfl _ hmem⟩

/-- Claim C7: `check_ira_status` follows the matching algorithm in order —
empty input gives is_ira_drug=false with risk "Unknown"; an exact registry
match of the uppercased, trimmed input gives is_ira_drug=true with the
registry year and "High Risk" (ENBREL gives 2026); otherwise the first
substring match in either direction over the insertion-ordered combined
registry gives the same High Risk shape with the registry canonical name;
otherwise is_ira_drug=false with "Low Risk" (METFORMIN). -/
theorem c7_ira_matching :
    ((check_ira_status "").is_ira_drug = false ∧
      (check_ira_status "").risk_level = "Unknown") ∧
    (∀ (s : String) (y : Nat), s ≠ "" →
      IRA_DRUGS_BY_YEAR.lookup (stripStr (upperStr s)) = some y →
      (check_ira_status s).is_ira_drug = true ∧
      (check_ira_status s).ira_year = some y ∧
      (check_ira_status s).drug_name = some (stripStr (upperStr s)) ∧
      (check_ira_status s).risk_level = "High Risk") ∧
    (∀ (s : String) (p : String × Nat), s ≠ "" →
      IRA_DRUGS_BY_YEAR.lookup (stripStr (upperStr s)) = none →
      IRA_DRUGS_BY_YEAR.find?
        (fun q => isSubstrOf q.1 (stripStr (upperStr s))
          || isSubstrOf (stripStr (upperStr s)) q.1) = some p →
      (check_ira_status s).is_ira_drug = true ∧
      (check_ira_status s).ira_year = some p.2 ∧
      (check_ira_status s).drug_name = some p.1 ∧
      (check_ira_status s).risk_level = "High Risk") ∧
    (∀ s : String, s ≠ "" →
      IRA_DRUGS_BY_YEAR.lookup (stripStr (upperStr s)) = none →
      IRA_DRUGS_BY_YEAR.find?
        (fun q => isSubstrOf q.1 (stripStr (upperStr s))
          || isSubstrOf (stripStr (upperStr s)) q.1) = none →
      (check_ira_status s).is_ira_drug = false ∧
      (check_ira_status s).risk_level = "Low Risk") ∧
    ((check_ira_status "ENBREL").is_ira_drug = true ∧
      (check_ira_status "ENBREL").ira_year = some 2026 ∧
      (check_ira_status "ENBREL").risk_level = "High Risk") ∧
    ((check_ira_status "METFORMIN").is_ira_drug = false ∧
      (check_ira_status "METFORMIN").risk_level = "Low Risk") := by
  refine ⟨⟨rfl, rfl⟩, ?_, ?_, ?_, ?_, ?_⟩
  · intro s y hs hlook
    simp [check_ira_status, check_ira_status_core, hs, hlook]
  · intro s p hs hlook hfind
    simp [check_ira_status, check_ira_status_core, hs, hlook, hfind]
  · intro s hs hlook hfind
    simp [check_ira_status, check_ira_status_core, hs, hlook, hfind]
  · refine ⟨?_, ?_, ?_⟩ <;> decide
  · refine ⟨?_, ?_⟩ <;> decide

/-- Claim C7 witness: the exact-match branch applied to "ENBREL" and the
no-match branch applied to "METFORMIN". -/
theorem c7_witness :
    ((check_ira_status "ENBREL").is_ira_drug = true ∧
      (check_ira_status "ENBREL").ira_year = some 2026) ∧
    (check_ira_status "METFORMIN").risk_level = "Low Risk" := by
  have h1 := c7_ira_matching.2.1 "ENBREL" 2026 (by decide) (by decide)
  have h2 := c7_ira_matching.2.2.2.1 "METFORMIN" (by decide) (by decide) (by decide)
  exact ⟨⟨h1.1, h1.2.1⟩, h2.2⟩

/-- Claim C8: the reload operation accepts (drug_name, year, description)
rows, reports the count of replaced entries, and replaces the registry so
that subsequent lookups consult the new table: any name whose normalized form
is a key of the new registry is classified as an IRA drug with the year
recorded in the uploaded rows. -/
theorem c8_ira_reload :
    (∀ rows : List IraReferenceRow,
      (reload_ira_drugs rows).2.2 = rows.length) ∧
    (∀ (rows : List IraReferenceRow) (name : String) (y : Nat), name ≠ "" →
      (reload_ira_drugs rows).1.lookup (stripStr (upperStr name)) = some y →
      (check_ira_status_core (reload_ira_drugs rows).1
          (reload_ira_drugs rows).2.1 name).is_ira_drug = true ∧
      (check_ira_status_core (reload_ira_drugs rows).1
          (reload_ira_drugs rows).2.1 name).ira_year = some y ∧
      (check_ira_status_core (reload_ira_drugs rows).1
          (reload_ira_drugs rows).2.1 name).risk_level = "High Risk") := by
  constructor
  · intro rows
    rfl
  · intro rows name y hname hlook
    simp [check_ira_status_core, hname, hlook]

/-- Claim C8 witness: uploading a single row for a drug absent from the
built-in registry makes a subsequent lookup flag it with the uploaded year,
and the reported count is 1. -/
theorem c8_witness :
    (reload_ira_drugs [⟨"Newdrug", 2030, "Test drug"⟩]).2.2 = 1 ∧
    (check_ira_status_core (reload_ira_drugs [⟨"Newdrug", 2030, "Test drug"⟩]).1
        (reload_ira_drugs [⟨"Newdrug", 2030, "Test drug"⟩]).2.1
        "NEWDRUG").is_ira_drug = true ∧
    (check_ira_status_core (reload_ira_drugs [⟨"Newdrug", 2030, "Test drug"⟩]).1
        (reload_ira_drugs [⟨"Newdrug", 2030, "Test drug"⟩]).2.1
        "NEWDRUG").ira_year = some 2030 := by
  have h := c8_ira_reload.2 [⟨"Newdrug", 2030, "Test drug"⟩] "NEWDRUG" 2030
    (by decide) (by decide)
  exact ⟨c8_ira_reload.1 [⟨"Newdrug", 2030, "Test drug"⟩], h.1, h.2.1⟩

/-- Claim C9: the bulk path flags a record exactly when its explicit
penny_pricing flag is true or its discount is ≥ 95.0 (flag true + discount 50
flagged; flag false + discount 99.9 flagged; flag false + discount 50 not),
every flagged record carries should_exclude = true, and the single-drug path
additionally flags on a per-unit price ≤ 0.10 as a third independent
trigger. -/
theorem c9_penny_flags :
    (∀ f : NadacFrame, f.has_penny_column = true →
      check_penny_pricing f
        = f.rows.filterMap
            (bulkRowFlag f.has_penny_column f.has_discount_column)) ∧
    (∀ r : NadacRow,
      (bulkRowFlag true true r).isSome = true ↔
        (r.penny_pricing = some true ∨
          ∃ d, r.total_discount_340b_pct = some d ∧ (95 : ℚ) ≤ d)) ∧
    (∀ f : NadacFrame, ∀ fr ∈ check_penny_pricing f,
      fr.should_exclude = true) ∧
    (check_penny_pricing exampleNadacFrame).map (fun fr => fr.ndc) = ["A", "B"] ∧
    (∀ r : NadacRow,
      (drugRowAssess true true true r).1 = true ↔
        (r.penny_pricing = some true ∨
          (∃ p, r.nadac_per_unit = some p ∧ p ≤ (10 : ℚ) / 100) ∨
          (∃ d, r.total_discount_340b_pct = some d ∧ (95 : ℚ) ≤ d))) ∧
    ((check_penny_pricing_for_drug "X" singleRowFrame).is_penny_priced = true ∧
      (check_penny_pricing_for_drug "X" singleRowFrame).should_exclude = true) := by
  refine ⟨?_, ?_, ?_, ?_, ?_, ?_⟩
  · intro f h
    simp [check_penny_pricing, h]
  · intro r
    rcases r with ⟨n, pp, np, disc⟩
    rcases disc with _ | d
    · rcases pp with _ | b
      · simp [bulkRowFlag, bulkRowTrigger]
      · cases b <;> simp [bulkRowFlag, bulkRowTrigger]
    · by_cases hd : (95 : ℚ) ≤ d
      · simp [bulkRowFlag, bulkRowTrigger, HIGH_DISCOUNT_THRESHOLD, hd]
      · rcases pp with _ | b
        · simp [bulkRowFlag, bulkRowTrigger, HIGH_DISCOUNT_THRESHOLD, hd]
        · cases b <;> simp [bulkRowFlag, bulkRowTrigger, HIGH_DISCOUNT_THRESHOLD, hd]
  · intro f fr hfr
    rw [check_penny_pricing] at hfr
    split at hfr
    · simp at hfr
    · rw [List.mem_filterMap] at hfr
      obtain ⟨r, -, heq⟩ := hfr
      simp only [bulkRowFlag] at heq
      split at heq
      · obtain rfl := (Option.some.injEq _ _).mp heq
        rfl
      · exact absurd heq (by simp)
  · norm_num [check_penny_pricing, exampleNadacFrame, bulkRowFlag,
      bulkRowTrigger, HIGH_DISCOUNT_THRESHOLD, List.filterMap]
  · intro r
    rcases r with ⟨n, pp, np, disc⟩
    rcases disc with _ | d
    · rcases np with _ | p
      · rcases pp with _ | b
        · simp [drugRowAssess]
        · cases b <;> simp [drugRowAssess]
      · by_cases hp : p ≤ (10 : ℚ) / 100
        · simp [drugRowAssess, PENNY_THRESHOLD, hp]
        · rcases pp with _ | b
          · simp [drugRowAssess, PENNY_THRESHOLD, hp]
          · cases b <;> simp [drugRowAssess, PENNY_THRESHOLD, hp]
    · by_cases hd : (95 : ℚ) ≤ d
      · simp [drugRowAssess, HIGH_DISCOUNT_THRESHOLD, hd]
      · rcases np with _ | p
        · rcases pp with _ | b
          · simp [drugRowAssess, HIGH_DISCOUNT_THRESHOLD, hd]
          · cases b <;> simp [drugRowAssess, HIGH_DISCOUNT_THRESHOLD, hd]
        · by_cases hp : p ≤ (10 : ℚ) / 100
          · simp [drugRowAssess, PENNY_THRESHOLD, HIGH_DISCOUNT_THRESHOLD, hd, hp]
          · rcases pp with _ | b
            · simp [drugRowAssess, PENNY_THRESHOLD, HIGH_DISCOUNT_THRESHOLD, hd, hp]
            · cases b <;>
                simp [drugRowAssess, PENNY_THRESHOLD, HIGH_DISCOUNT_THRESHOLD, hd, hp]
  · constructor <;>
      norm_num [check_penny_pricing_for_drug, singleRowFrame, drugRowAssess,
        PENNY_THRESHOLD, List.filter]

/-- Claim C9 witness: the bulk-path characterization applied to a concrete
record carrying only the high-discount trigger. -/
theorem c9_witness :
    (bulkRowFlag true true
      { ndc := "B", penny_pricing := some false,
        total_discount_340b_pct := some (999 / 10) }).isSome = true := by
  refine (c9_penny_flags.2.1 _).mpr (Or.inr ⟨999 / 10, rfl, by norm_num⟩)

/-- Claim C10 counterexample: an analysis whose medicare_margin is present and
equal to zero renders as `None` in the display dictionary (Python truthiness),
contradicting the claim that every present Decimal field, including a present
zero, is converted to a numeric display value. -/
theorem c10_counterexample :
    (analyze_drug_margin drugZeroMedicare DEFAULT_CAPTURE_RATE).medicare_margin
      = some 0 ∧
    (to_display_dict
      (analyze_drug_margin drugZeroMedicare DEFAULT_CAPTURE_RATE)).medicare_margin
      = none := by
  have h : (analyze_drug_margin drugZeroMedicare
      DEFAULT_CAPTURE_RATE).medicare_margin = some 0 := by
    norm_num [analyze_drug_margin, calculate_medicare_margin,
      Drug.has_medical_path, drugZeroMedicare, MEDICARE_ASP_MULTIPLIER]
  refine ⟨h, ?_⟩
  simp [to_display_dict, truthyFloat, h]

/-- Claim C10 (amended): `to_display_dict` produces exactly the fifteen named
fields; the unconditionally converted fields (strings, contract_cost, awp,
retail margins, capture rate, recommendation, margin_delta, flags) always
carry the source value, even zero; asp, medicare_margin and commercial_margin
render as `None` exactly when absent or present-but-zero (Python truthiness),
and as the numeric value when present and nonzero. -/
theorem c10_display_dict (ma : MarginAnalysis) :
    (to_display_dict ma).ndc = ma.drug.ndc ∧
    (to_display_dict ma).drug_name = ma.drug.drug_name ∧
    (to_display_dict ma).manufacturer = ma.drug.manufacturer ∧
    (to_display_dict ma).contract_cost = ma.drug.contract_cost ∧
    (to_display_dict ma).awp = ma.drug.awp ∧
    (to_display_dict ma).retail_gross_margin = ma.retail_gross_margin ∧
    (to_display_dict ma).retail_net_margin = ma.retail_net_margin ∧
    (to_display_dict ma).retail_capture_rate = ma.retail_capture_rate ∧
    (to_display_dict ma).recommendation = ma.recommended_path.value ∧
    (to_display_dict ma).margin_delta = ma.margin_delta ∧
    (to_display_dict ma).ira_risk = ma.drug.ira_flag ∧
    (to_display_dict ma).penny_pricing = ma.drug.penny_pricing_flag ∧
    ((to_display_dict ma).asp = none ↔
      (ma.drug.asp = none ∨ ma.drug.asp = some 0)) ∧
    (∀ v : ℚ, ma.drug.asp = some v → v ≠ 0 →
      (to_display_dict ma).asp = some v) ∧
    ((to_display_dict ma).medicare_margin = none ↔
      (ma.medicare_margin = none ∨ ma.medicare_margin = some 0)) ∧
    (∀ v : ℚ, ma.medicare_margin = some v → v ≠ 0 →
      (to_display_dict ma).medicare_margin = some v) ∧
    ((to_display_dict ma).commercial_margin = none ↔
      (ma.commercial_margin = none ∨ ma.commercial_margin = some 0)) ∧
    (∀ v : ℚ, ma.commercial_margin = some v → v ≠ 0 →
      (to_display_dict ma).commercial_margin = some v) := by
  refine ⟨rfl, rfl, rfl, rfl, rfl, rfl, rfl, rfl, rfl, rfl, rfl, rfl,
    ?_, ?_, ?_, ?_, ?_, ?_⟩
  · rcases hasp : ma.drug.asp with _ | v
    · simp [to_display_dict, truthyFloat, hasp]
    · by_cases hv : v = 0 <;> simp [to_display_dict, truthyFloat, hasp, hv]
  · intro v hasp hv
    simp [to_display_dict, truthyFloat, hasp, hv]
  · rcases hmed : ma.medicare_margin with _ | v
    · simp [to_display_dict, truthyFloat, hmed]
    · by_cases hv : v = 0 <;> simp [to_display_dict, truthyFloat, hmed, hv]
  · intro v hmed hv
    simp [to_display_dict, truthyFloat, hmed, hv]
  · rcases hcom : ma.commercial_margin with _ | v
    · simp [to_display_dict, truthyFloat, hcom]
    · by_cases hv : v = 0 <;> simp [to_display_dict, truthyFloat, hcom, hv]
  · intro v hcom hv
    simp [to_display_dict, truthyFloat, hcom, hv]

/-- Claim C10 witness: the amended theorem applied to the analysis of the
gatekeeper drug, whose asp is present and nonzero. -/
theorem c10_witness :
    (to_display_dict (analyze_drug_margin gatekeeperDrug DEFAULT_CAPTURE_RATE)).asp
      = some 2800 :=
  (c10_display_dict
    (analyze_drug_margin gatekeeperDrug DEFAULT_CAPTURE_RATE)).2.2.2.2.2.2.2.2.2.2.2.2.2.1
    2800 rfl (by norm_num)
